import Mathlib

/-!
Shallow embedding of the token-lifecycle and offer-cache core of the
applifting-python-sdk repository (`src/applifting_python_sdk/client.py`,
`cache.py`, `exceptions.py`).

Modelling conventions:
* `time.monotonic()` values are integers (`Int`); a single instant is passed
  explicitly to every operation that reads the clock.
* The token cache file is modelled by `FileData`: missing, unreadable
  (a read raises an `OSError` such as `PermissionError`), unparseable text,
  or a parsed JSON value.  JSON numbers are integers.
* Python exceptions are explicit: `Except PyError` for the uncaught built-in
  exceptions that `_load_token_from_file` can leak, `Except SDKError` for the
  SDK error taxonomy of `exceptions.py`.
* Python truthiness (`if not token:` and friends) is modelled by `pyTruthy`;
  in particular the empty string is falsy.
* The async variants (`async_get_access_token`, `async_refresh_access_token`,
  `_async_refresh_access_token_unsafe`, `async_auth_flow`, `async_get`) are
  statement-for-statement identical to the sync ones apart from the lock used,
  so the embedding models the sync track once.
* Locks serialize each track; every modelled operation is one critical
  section, so operations act atomically on the state.
-/

namespace AppliftingSDK

/-- JSON values as produced by `json.loads`; numbers are modelled as integers. -/
inductive JsonValue where
  | jnull
  | jbool (b : Bool)
  | jnum (n : Int)
  | jstr (s : String)
  | jarr (elems : List JsonValue)
  | jobj (fields : List (String × JsonValue))


/-- Python truthiness of a value (`if token:`): `None`, `False`, `0`, `""`,
`[]` and `{}` are falsy. -/
def JsonValue.pyTruthy : JsonValue → Bool
  | .jnull => false
  | .jbool b => b
  | .jnum n => n != 0
  | .jstr s => s != ""
  | .jarr elems => !elems.isEmpty
  | .jobj fields => !fields.isEmpty

/-- A JSON value usable as a Python number in an ordering comparison
(`bool` is an `int` subclass in Python); everything else raises `TypeError`
when compared against a float. -/
def JsonValue.asPyNumber : JsonValue → Option Int
  | .jnum n => some n
  | .jbool b => some (if b then 1 else 0)
  | _ => none

/-- Python `dict.get(key)` on the field list of a parsed JSON object
(with duplicate keys the last binding wins, as in `json.loads`). -/
def dictGet (fields : List (String × JsonValue)) (key : String) : Option JsonValue :=
  fields.reverse.lookup key

/-- Collapse a JSON `null` to Python `None`: `data.get(k)` yields `None` both
when the key is absent and when it maps to `null`. -/
def pyOptional : Option JsonValue → Option JsonValue
  | some .jnull => none
  | o => o

/-- Built-in Python exceptions that `TokenManager._load_token_from_file` can
leak (they are not in its `except (json.JSONDecodeError, FileNotFoundError,
KeyError)` clause). -/
inductive PyError where
  /-- e.g. `PermissionError` from `read_text()` on an unreadable file. -/
  | osError
  /-- `.get` on a parsed value that is not a `dict`. -/
  | attributeError
  /-- ordering comparison between `time.monotonic()` and a non-number. -/
  | typeError


/-- The state of the on-disk token cache file as seen by one load attempt. -/
inductive FileData where
  /-- `self._cache_path.exists()` is false. -/
  | missing
  /-- the file exists but `read_text()` raises an `OSError`
  (e.g. `PermissionError`) that is not a `FileNotFoundError`. -/
  | unreadable
  /-- the file reads fine but `json.loads` raises `JSONDecodeError`. -/
  | invalidJson (text : String)
  /-- the file reads and parses to this JSON value. -/
  | parsed (v : JsonValue)


/-- The in-memory token state of `TokenManager`: `_access_token` (Python
`None` or the assigned value) and `_expires_at`. -/
structure TMState where
  accessToken : Option JsonValue
  expiresAt : Int


/-- Truthiness of `self._access_token`. -/
def TMState.tokenTruthy (st : TMState) : Bool :=
  match st.accessToken with
  | some v => v.pyTruthy
  | none => false

/-- `TokenManager._load_token_from_file`, acting on the in-memory state.
Reads the cache file; adopts the record if `time.monotonic() <
data.get("expires_at", 0)`, otherwise clears the in-memory token; clears it
as well on the caught exceptions (`JSONDecodeError`, `FileNotFoundError`,
`KeyError`).  Uncaught exceptions (unreadable file, `.get` on a non-dict,
comparison with a non-number) escape as `PyError`. -/
def loadTokenFromFile (file : FileData) (now : Int) (st : TMState) :
    Except PyError TMState :=
  match file with
  | .missing => .ok st
  | .unreadable => .error .osError
  | .invalidJson _ => .ok { accessToken := none, expiresAt := 0 }
  | .parsed v =>
    match v with
    | .jobj fields =>
      match ((dictGet fields "expires_at").getD (.jnum 0)).asPyNumber with
      | none => .error .typeError
      | some ea =>
        if now < ea then
          .ok { accessToken := pyOptional (dictGet fields "access_token"), expiresAt := ea }
        else
          .ok { accessToken := none, expiresAt := 0 }
    | _ => .error .attributeError

/-- `TokenManager._save_token_to_file`: returns early when `_access_token` is
falsy, otherwise overwrites the file with the JSON record.  (A failing write
is swallowed in the source; the model assumes a writable filesystem, which is
the only case the claims touch.) -/
def saveTokenToFile (st : TMState) (file : FileData) : FileData :=
  match st.accessToken with
  | none => file
  | some tok =>
    if tok.pyTruthy then
      .parsed (.jobj [("access_token", tok), ("expires_at", .jnum st.expiresAt)])
    else
      file

/-- What one call to `TokenManager.get_access_token` produces: the returned
value, the state after the call, and whether the persistent store was read. -/
structure GetResult where
  token : Option JsonValue
  state : TMState
  storeRead : Bool


/-- `TokenManager.get_access_token` (and the identical
`async_get_access_token`): return a truthy in-memory token that is not
expired; if the in-memory token is truthy but expired return `None` without
consulting the store; otherwise load from the file and re-check. -/
def getAccessToken (st : TMState) (file : FileData) (now : Int) :
    Except PyError GetResult :=
  if st.tokenTruthy && decide (now < st.expiresAt) then
    .ok { token := st.accessToken, state := st, storeRead := false }
  else if st.tokenTruthy then
    .ok { token := none, state := st, storeRead := false }
  else
    match loadTokenFromFile file now st with
    | .error e => .error e
    | .ok st2 =>
      if st2.tokenTruthy && decide (now < st2.expiresAt) then
        .ok { token := st2.accessToken, state := st2, storeRead := true }
      else
        .ok { token := none, state := st2, storeRead := true }

/-- The SDK error taxonomy of `exceptions.py`.

Modelled from the spec: the class `TokenRefreshDeniedError` is missing from
`exceptions.py` in the sources (only its raise sites in `client.py` and the
importing line in `cli.py` are present); the spec declares it a subtype of
`AuthenticationError`, which the model records via
`SDKError.isAuthenticationError`. -/
inductive SDKError where
  | authenticationError (msg : String)
  | tokenRefreshDeniedError (msg : String)
  | apiError (status : Nat) (msg : String)
  | productNotFound (status : Nat) (msg : String)
  | productAlreadyExists (status : Nat) (msg : String)
deriving DecidableEq

/-- Modelled from the spec: Python `isinstance(e, AuthenticationError)`.
`TokenRefreshDeniedError` is a subclass of `AuthenticationError`; the two
domain errors and `APIError` are not. -/
def SDKError.isAuthenticationError : SDKError → Bool
  | .authenticationError _ => true
  | .tokenRefreshDeniedError _ => true
  | _ => false

/-- Whether `pat` is a leading segment of `hay`. -/
def charListStartsWith : List Char → List Char → Bool
  | _, [] => true
  | [], _ :: _ => false
  | c :: cs, p :: ps => c == p && charListStartsWith cs ps

/-- Whether `pat` occurs contiguously somewhere in `hay`. -/
def charListHasSegment : List Char → List Char → Bool
  | [], pat => pat.isEmpty
  | c :: cs, pat => charListStartsWith (c :: cs) pat || charListHasSegment cs pat

/-- Python substring test: `pat in hay`. -/
def strContains (hay pat : String) : Bool :=
  charListHasSegment hay.data pat.data

/-- The message marker of a rate-limited refresh denial
(`"Cannot generate" in response.content.decode(...)`). -/
def cannotGenerateMarker : String := "Cannot generate"

/-- A response of the auth endpoint as seen by `TokenManager`: the HTTP
status, the decoded body, and the `parsed` field that the generated
`auth_api_v1_auth_post._parse_response` fills with an `AuthResponse` carrying
`access_token` only for a 201 status. -/
structure AuthHttpResponse where
  status : Nat
  body : String
  parsedToken : Option String


/-- The outcome of one network call to the auth endpoint: either the call
raises (connection error) or a response comes back. -/
inductive AuthNetResult where
  | connectError (msg : String)
  | response (r : AuthHttpResponse)


/-- What one call to `TokenManager.refresh_access_token` produces: the
returned token or raised error, the state after the call, the file after the
call, and how many network calls to the auth endpoint were performed. -/
structure RefreshResult where
  result : Except SDKError JsonValue
  state : TMState
  file : FileData
  networkCalls : Nat


/-- `TokenManager._refresh_access_token_sync_unsafe` (and the identical
`_async_refresh_access_token_unsafe`): one network call; on a 201 response
with a parsed body, store the token with `expires_at = monotonic + ttl`, save
it to the file and return it; on a 400 response whose body contains the
"Cannot generate" marker raise `TokenRefreshDeniedError`; on any other
response or a connection failure raise `AuthenticationError`. -/
def refreshAccessTokenSyncInner (st : TMState) (file : FileData)
    (now ttl : Int) (net : AuthNetResult) : RefreshResult :=
  match net with
  | .connectError msg =>
    { result := .error (.authenticationError
        ("Failed to connect to authentication service: " ++ msg)),
      state := st, file := file, networkCalls := 1 }
  | .response r =>
    match r.status == 201, r.parsedToken with
    | true, some tok =>
      let st2 : TMState := { accessToken := some (.jstr tok), expiresAt := now + ttl }
      { result := .ok (.jstr tok), state := st2,
        file := saveTokenToFile st2 file, networkCalls := 1 }
    | _, _ =>
      if r.status == 400 && strContains r.body cannotGenerateMarker then
        { result := .error (.tokenRefreshDeniedError
            "API denied token refresh, likely due to rate-limiting."),
          state := st, file := file, networkCalls := 1 }
      else
        { result := .error (.authenticationError
            ("Failed to refresh access token. Status: " ++ toString r.status ++
              ", Body: " ++ r.body)),
          state := st, file := file, networkCalls := 1 }

/-- `TokenManager.refresh_access_token` (and the identical
`async_refresh_access_token`): under the lock, return the in-memory token
unchanged when not forcing and it is truthy and unexpired, otherwise perform
the network refresh. -/
def refreshAccessToken (st : TMState) (file : FileData) (now ttl : Int)
    (net : AuthNetResult) (force : Bool) : RefreshResult :=
  if !force && st.tokenTruthy && decide (now < st.expiresAt) then
    { result := .ok (st.accessToken.getD .jnull), state := st, file := file,
      networkCalls := 0 }
  else
    refreshAccessTokenSyncInner st file now ttl net

/-- The accumulated outcome of a sequence of `refresh_access_token` calls. -/
structure SeqResult where
  state : TMState
  file : FileData
  networkCalls : Nat
  results : List (Except SDKError JsonValue)


/-- A sequence of `refresh_access_token(force=False)` calls, each given as the
monotonic instant of the call and the response the auth endpoint would give
if a network call happened. -/
def refreshSequence (st : TMState) (file : FileData) (ttl : Int) :
    List (Int × AuthNetResult) → SeqResult
  | [] => { state := st, file := file, networkCalls := 0, results := [] }
  | (t, net) :: rest =>
    let r := refreshAccessToken st file t ttl net false
    let s := refreshSequence r.state r.file ttl rest
    { state := s.state, file := s.file,
      networkCalls := r.networkCalls + s.networkCalls,
      results := r.result :: s.results }

/-- The observable outcome of one `BearerAuth.auth_flow` run: the Bearer
header carried by each send to the resource endpoint (`none` when the request
goes out without a credential), the number of network calls to the auth
endpoint, and the token-manager state and cache file afterwards. -/
structure FlowResult where
  sends : List (Option JsonValue)
  authCalls : Nat
  state : TMState
  file : FileData


/-- The scripted auth-endpoint responses, consumed in order; running out is a
connection failure. -/
def headAuth : List AuthNetResult → AuthNetResult
  | [] => .connectError "no scripted auth response"
  | a :: _ => a

/-- The part of `BearerAuth.auth_flow` from the first `yield request` on (the
generator resumed with the first response): on a 401 when this flow has not
already refreshed, force a refresh and resend once with the new credential
attached; on a failed forced refresh, or on any other status, the flow ends
after the single send. -/
def authFlowResume (token : Option JsonValue) (refreshed : Bool)
    (st : TMState) (file : FileData) (now ttl : Int)
    (authNet : List AuthNetResult) (authCalls : Nat) (resp1Status : Nat) :
    FlowResult :=
  let header1 : Option JsonValue :=
    match token with
    | some t => if t.pyTruthy then some t else none
    | none => none
  if resp1Status == 401 && !refreshed then
    let r := refreshAccessToken st file now ttl (headAuth authNet) true
    match r.result with
    | .ok t2 =>
      { sends := [header1, some t2], authCalls := authCalls + r.networkCalls,
        state := r.state, file := r.file }
    | .error _ =>
      { sends := [header1], authCalls := authCalls + r.networkCalls,
        state := r.state, file := r.file }
  else
    { sends := [header1], authCalls := authCalls, state := st, file := file }

/-- `BearerAuth.auth_flow` (and the behaviourally identical
`async_auth_flow`) for one logical request: get a cached token; when falsy,
attempt one non-forced refresh (marking the flow as refreshed on success and
proceeding without a credential on an authentication error); attach the token
if truthy; send; then `authFlowResume` handles the response.  A single
monotonic instant is used for the whole flow.  `resp1Status` is the status
the resource endpoint answers to the first send. -/
def authFlow (st : TMState) (file : FileData) (now ttl : Int)
    (authNet : List AuthNetResult) (resp1Status : Nat) :
    Except PyError FlowResult :=
  match getAccessToken st file now with
  | .error e => .error e
  | .ok g =>
    match g.token with
    | some t =>
      .ok (authFlowResume (some t) false g.state file now ttl authNet 0 resp1Status)
    | none =>
      let r := refreshAccessToken g.state file now ttl (headAuth authNet) false
      match r.result with
      | .ok t =>
        .ok (authFlowResume (some t) true r.state r.file now ttl
          authNet.tail r.networkCalls resp1Status)
      | .error _ =>
        .ok (authFlowResume none false r.state r.file now ttl
          authNet.tail r.networkCalls resp1Status)

/-- Product identifiers are opaque unique ids (UUIDs in the source). -/
abbrev ProductId := Nat

/-- `models.Offer`: an offer as returned by the server. -/
structure Offer where
  id : ProductId
  price : Int
  itemsInStock : Int
deriving DecidableEq

/-- `cache.OfferCache`: a TTL cache from product id to offer list, entries
stamped with the monotonic instant of their `set`. -/
structure OfferCache where
  ttl : Int
  cache : ProductId → Option (List Offer × Int)

/-- `OfferCache.get` (and the identical `async_get`): return the entry when
present and `now - timestamp <= ttl`; delete it and return `None` when
present but older than the TTL (lazy eviction); return `None` when absent. -/
def OfferCache.get (c : OfferCache) (key : ProductId) (now : Int) :
    Option (List Offer) × OfferCache :=
  match c.cache key with
  | none => (none, c)
  | some (value, timestamp) =>
    if now - timestamp > c.ttl then
      (none, { c with cache := fun k => if k = key then none else c.cache k })
    else
      (some value, c)

/-- `OfferCache.set` (and the identical `async_set`): store the value under
the key with the current monotonic timestamp. -/
def OfferCache.set (c : OfferCache) (key : ProductId) (value : List Offer)
    (now : Int) : OfferCache :=
  { c with cache := fun k => if k = key then some (value, now) else c.cache k }

/-- A response of the offers endpoint as seen by the facade: HTTP status,
decoded body, and the `parsed` list that the generated client fills only for a
200 status. -/
structure OffersHttpResponse where
  status : Nat
  body : String
  parsedOffers : Option (List Offer)


/-- `_BaseClient._handle_get_offers_response`: 200 with a parsed body maps to
the offer list; 404 raises `ProductNotFound`; 401 raises
`AuthenticationError`; anything else raises `APIError`. -/
def handleGetOffersResponse (resp : OffersHttpResponse) (productId : ProductId) :
    Except SDKError (List Offer) :=
  match resp.status == 200, resp.parsedOffers with
  | true, some offers => .ok offers
  | _, _ =>
    if resp.status == 404 then
      .error (.productNotFound resp.status
        ("Product with ID " ++ toString productId ++ " not found."))
    else if resp.status == 401 then
      .error (.authenticationError
        "Authentication failed. The refresh token may be invalid or expired.")
    else
      .error (.apiError resp.status resp.body)

/-- `OffersClient.get_offers` (and the identical
`AsyncOffersClient.get_offers`): consult the cache first; on a hit return the
cached list; on a miss perform the fetch (`resp` is the response the offers
endpoint would give), translate it, and populate the cache only on success.
Returns the domain outcome, the cache afterwards, and the number of fetches
performed. -/
def getOffersOp (cache : OfferCache) (productId : ProductId) (now : Int)
    (resp : OffersHttpResponse) :
    Except SDKError (List Offer) × OfferCache × Nat :=
  match OfferCache.get cache productId now with
  | (some cached, cache1) => (.ok cached, cache1, 0)
  | (none, cache1) =>
    match handleGetOffersResponse resp productId with
    | .error e => (.error e, cache1, 1)
    | .ok offers => (.ok offers, OfferCache.set cache1 productId offers now, 1)

/-- Whether an `Except` computation succeeded. -/
def exceptOk {ε α : Type} : Except ε α → Bool
  | .ok _ => true
  | .error _ => false

/-- C10: every `refresh_access_token` network attempt that fails — a
transport/connection exception, a non-201 status, or the rate-limit denial —
leaves the in-memory token state (`_access_token`, `_expires_at`) exactly as
it was before the call, and the cache file as well; only a successful refresh
mutates them. -/
theorem failed_refresh_preserves_token_state (st : TMState) (file : FileData)
    (now ttl : Int) (net : AuthNetResult) (e : SDKError)
    (hfail : (refreshAccessTokenSyncInner st file now ttl net).result = .error e) :
    (refreshAccessTokenSyncInner st file now ttl net).state = st ∧
    (refreshAccessTokenSyncInner st file now ttl net).file = file := by
  cases net with
  | connectError msg => exact ⟨rfl, rfl⟩
  | response r =>
    unfold refreshAccessTokenSyncInner at hfail ⊢
    cases h1 : r.status == 201 <;> cases h2 : r.parsedToken <;>
      simp only [h1, h2] at hfail ⊢ <;> first
        | (constructor <;> split <;> rfl)
        | simp at hfail

theorem failed_refresh_preserves_token_state_witness :
    (refreshAccessTokenSyncInner ⟨some (.jstr "t"), 9⟩ .missing 0 270
        (.response ⟨401, "denied", none⟩)).state = ⟨some (.jstr "t"), 9⟩ ∧
    (refreshAccessTokenSyncInner ⟨some (.jstr "t"), 9⟩ .missing 0 270
        (.response ⟨401, "denied", none⟩)).file = .missing :=
  failed_refresh_preserves_token_state ⟨some (.jstr "t"), 9⟩ .missing 0 270
    (.response ⟨401, "denied", none⟩)
    (.authenticationError "Failed to refresh access token. Status: 401, Body: denied") rfl

/-- C3: a refresh whose auth-endpoint response has status 400 with a body
containing "Cannot generate" raises `TokenRefreshDeniedError`; that error
kind counts as an `AuthenticationError` (subtype) yet is distinct from the
plain `AuthenticationError` constructor, so callers can distinguish a
rate-limited refresh from a hard authentication failure. -/
theorem refresh_denied_distinct_error (st : TMState) (file : FileData)
    (now ttl : Int) (body : String) (pt : Option String)
    (hmarker : strContains body cannotGenerateMarker = true) :
    (refreshAccessTokenSyncInner st file now ttl (.response ⟨400, body, pt⟩)).result =
      .error (.tokenRefreshDeniedError
        "API denied token refresh, likely due to rate-limiting.") ∧
    SDKError.isAuthenticationError
      (.tokenRefreshDeniedError
        "API denied token refresh, likely due to rate-limiting.") = true ∧
    (∀ m1 m2 : String,
      SDKError.tokenRefreshDeniedError m1 ≠ SDKError.authenticationError m2) := by
  refine ⟨?_, rfl, fun m1 m2 h => by cases h⟩
  cases pt <;> simp [refreshAccessTokenSyncInner, hmarker]

theorem refresh_denied_distinct_error_witness :
    (refreshAccessTokenSyncInner ⟨none, 0⟩ .missing 0 270
        (.response ⟨400, "Cannot generate token", none⟩)).result =
      .error (.tokenRefreshDeniedError
        "API denied token refresh, likely due to rate-limiting.") :=
  (refresh_denied_distinct_error ⟨none, 0⟩ .missing 0 270 "Cannot generate token" none
    (by decide)).1

/-- C4 counterexample: `_load_token_from_file` raises for an unreadable file
(`PermissionError` is not caught), for parseable JSON that is not an object
(`.get` raises `AttributeError`), and for an `expires_at` field that is not a
number (`TypeError` in the comparison) — the claim says load never raises. -/
theorem load_raises_counterexample :
    loadTokenFromFile .unreadable 0 ⟨none, 0⟩ = .error .osError ∧
    loadTokenFromFile (.parsed (.jarr [])) 0 ⟨none, 0⟩ = .error .attributeError ∧
    loadTokenFromFile (.parsed (.jobj [("expires_at", .jstr "soon")])) 0 ⟨none, 0⟩ =
      .error .typeError :=
  ⟨rfl, rfl, rfl⟩

/-- C4 (amended): the load operation returns without raising for a missing
file, for contents that fail to parse as JSON, and for a parsed JSON object
whose fields are missing or whose present `expires_at` is numeric; it can
raise only when the file is unreadable, when the parsed JSON is not an
object, or when `expires_at` holds a non-number. -/
theorem load_fails_soft (st : TMState) (now : Int) (file : FileData)
    (hread : file ≠ .unreadable)
    (hshape : ∀ v, file = .parsed v → ∃ fields, v = .jobj fields ∧
      (((dictGet fields "expires_at").getD (.jnum 0)).asPyNumber).isSome = true) :
    exceptOk (loadTokenFromFile file now st) = true := by
  cases file with
  | missing => rfl
  | unreadable => exact absurd rfl hread
  | invalidJson t => rfl
  | parsed v =>
    obtain ⟨fields, rfl, hnum⟩ := hshape v rfl
    unfold loadTokenFromFile
    cases h : ((dictGet fields "expires_at").getD (.jnum 0)).asPyNumber with
    | none => rw [h] at hnum; cases hnum
    | some ea => simp only [h]; split <;> rfl

theorem load_fails_soft_witness :
    exceptOk (loadTokenFromFile (.invalidJson "oops") 0 ⟨none, 0⟩) = true :=
  load_fails_soft ⟨none, 0⟩ 0 (.invalidJson "oops")
    (fun h => FileData.noConfusion h) (fun _ h => FileData.noConfusion h)

/-- C7 counterexample: a token whose access-token string is empty is falsy in
Python, so `_save_token_to_file` returns without writing; a fresh manager
then loads nothing, not a token equal to the original, even though the
original has not expired. -/
theorem save_load_round_trip_counterexample :
    saveTokenToFile ⟨some (.jstr ""), 50⟩ .missing = .missing ∧
    loadTokenFromFile (saveTokenToFile ⟨some (.jstr ""), 50⟩ .missing) 10 ⟨none, 0⟩ =
      .ok ⟨none, 0⟩ ∧
    (10 : Int) < 50 ∧
    (some (JsonValue.jstr "") ≠ (none : Option JsonValue)) :=
  ⟨rfl, rfl, by decide, by simp⟩

/-- C7 (amended): for every token with a non-empty access-token string that
has not expired by the load instant, `save` followed by `load` on a fresh
manager state (empty memory, same file, same monotonic clock domain) yields a
token equal to the original: same access token and same `expires_at`. -/
theorem save_load_round_trip (a : String) (e : Int) (file0 : FileData) (t : Int)
    (ha : a ≠ "") (hfresh : t < e) :
    loadTokenFromFile (saveTokenToFile ⟨some (.jstr a), e⟩ file0) t ⟨none, 0⟩ =
      .ok ⟨some (.jstr a), e⟩ := by
  have htr : (JsonValue.jstr a).pyTruthy = true := by
    simp [JsonValue.pyTruthy, ha]
  simp [saveTokenToFile, htr, loadTokenFromFile, dictGet, List.lookup, hfresh, pyOptional,
    JsonValue.asPyNumber]

theorem save_load_round_trip_witness :
    loadTokenFromFile (saveTokenToFile ⟨some (.jstr "tok"), 50⟩ .missing) 10 ⟨none, 0⟩ =
      .ok ⟨some (.jstr "tok"), 50⟩ :=
  save_load_round_trip "tok" 50 .missing 10 (by decide) (by decide)

/-- C8: an `OfferCache.get` returns a stored entry iff `now - storedAt <=
ttl`; a `get` that finds an entry older than the TTL deletes exactly that
entry and returns absent; neither `get` nor `set` ever touches any other
entry, so eviction happens only through such a read after expiry. -/
theorem offer_cache_lazy_eviction (c : OfferCache) (key : ProductId) (now : Int) :
    (∀ value ts, c.cache key = some (value, ts) → now - ts ≤ c.ttl →
      OfferCache.get c key now = (some value, c)) ∧
    (∀ value ts, c.cache key = some (value, ts) → now - ts > c.ttl →
      (OfferCache.get c key now).1 = none ∧
      (OfferCache.get c key now).2.cache key = none ∧
      (∀ k, k ≠ key → (OfferCache.get c key now).2.cache k = c.cache k)) ∧
    (c.cache key = none → OfferCache.get c key now = (none, c)) ∧
    (∀ value k, k ≠ key → (OfferCache.set c key value now).cache k = c.cache k) := by
  refine ⟨?_, ?_, ?_, ?_⟩
  · intro value ts h hle
    simp [OfferCache.get, h, not_lt.mpr hle]
  · intro value ts h hgt
    refine ⟨?_, ?_, ?_⟩
    · simp [OfferCache.get, h, hgt]
    · simp [OfferCache.get, h, hgt]
    · intro k hk
      simp [OfferCache.get, h, hgt, hk]
  · intro h
    simp [OfferCache.get, h]
  · intro value k hk
    simp [OfferCache.set, hk]

theorem offer_cache_lazy_eviction_witness :
    OfferCache.get ⟨10, fun k => if k = 1 then some ([⟨7, 100, 3⟩], 0) else none⟩ 1 5 =
      (some [⟨7, 100, 3⟩],
        ⟨10, fun k => if k = 1 then some ([⟨7, 100, 3⟩], 0) else none⟩) :=
  (offer_cache_lazy_eviction ⟨10, fun k => if k = 1 then some ([⟨7, 100, 3⟩], 0) else none⟩
    1 5).1 [⟨7, 100, 3⟩] 0 rfl (by decide)

/-- C2 counterexample: a successful refresh whose issued access token is the
empty string stores it with `expires_at = refreshTime + ttl` and skips the
file save (empty string is falsy), so a later `get_access_token` strictly
before expiry falls through to the file cache and returns a different, older
token instead of the refreshed one. -/
theorem refresh_get_window_counterexample :
    (refreshAccessTokenSyncInner ⟨none, 0⟩
        (.parsed (.jobj [("access_token", .jstr "old"), ("expires_at", .jnum 1000)]))
        0 270 (.response ⟨201, "", some ""⟩)).result = .ok (.jstr "") ∧
    (refreshAccessTokenSyncInner ⟨none, 0⟩
        (.parsed (.jobj [("access_token", .jstr "old"), ("expires_at", .jnum 1000)]))
        0 270 (.response ⟨201, "", some ""⟩)).state = ⟨some (.jstr ""), 270⟩ ∧
    (refreshAccessTokenSyncInner ⟨none, 0⟩
        (.parsed (.jobj [("access_token", .jstr "old"), ("expires_at", .jnum 1000)]))
        0 270 (.response ⟨201, "", some ""⟩)).file =
      .parsed (.jobj [("access_token", .jstr "old"), ("expires_at", .jnum 1000)]) ∧
    (5 : Int) < 270 ∧
    getAccessToken ⟨some (.jstr ""), 270⟩
        (.parsed (.jobj [("access_token", .jstr "old"), ("expires_at", .jnum 1000)])) 5 =
      .ok ⟨some (.jstr "old"), ⟨some (.jstr "old"), 1000⟩, true⟩ ∧
    JsonValue.jstr "old" ≠ .jstr "" :=
  ⟨rfl, rfl, rfl, by decide, rfl, by simp⟩

/-- C2 (amended): a successful refresh whose issued access token is a
non-empty string stores it in memory with `expires_at = refreshTime +
tokenTtlSeconds` and returns it; afterwards `get_access_token` returns that
token at every instant strictly before `expires_at` and returns absent at
every instant at or after `expires_at`, regardless of the file cache. -/
theorem refresh_sets_expiry_and_get_window (st : TMState) (file : FileData)
    (rt ttl : Int) (body s : String) (hs : s ≠ "") :
    (refreshAccessTokenSyncInner st file rt ttl (.response ⟨201, body, some s⟩)).result
      = .ok (.jstr s) ∧
    (refreshAccessTokenSyncInner st file rt ttl (.response ⟨201, body, some s⟩)).state
      = ⟨some (.jstr s), rt + ttl⟩ ∧
    (∀ t : Int, ∀ f : FileData, t < rt + ttl →
      getAccessToken ⟨some (.jstr s), rt + ttl⟩ f t =
        .ok ⟨some (.jstr s), ⟨some (.jstr s), rt + ttl⟩, false⟩) ∧
    (∀ t : Int, ∀ f : FileData, rt + ttl ≤ t →
      getAccessToken ⟨some (.jstr s), rt + ttl⟩ f t =
        .ok ⟨none, ⟨some (.jstr s), rt + ttl⟩, false⟩) := by
  have htr : TMState.tokenTruthy ⟨some (.jstr s), rt + ttl⟩ = true := by
    simp [TMState.tokenTruthy, JsonValue.pyTruthy, hs]
  refine ⟨rfl, rfl, ?_, ?_⟩
  · intro t f ht
    simp [getAccessToken, htr, ht]
  · intro t f ht
    simp [getAccessToken, htr, not_lt.mpr ht]

theorem refresh_sets_expiry_and_get_window_witness :
    (refreshAccessTokenSyncInner ⟨none, 0⟩ .missing 0 270
        (.response ⟨201, "", some "tok"⟩)).result = .ok (.jstr "tok") ∧
    getAccessToken ⟨some (.jstr "tok"), 0 + 270⟩ .missing 5 =
      .ok ⟨some (.jstr "tok"), ⟨some (.jstr "tok"), 0 + 270⟩, false⟩ ∧
    getAccessToken ⟨some (.jstr "tok"), 0 + 270⟩ .missing 300 =
      .ok ⟨none, ⟨some (.jstr "tok"), 0 + 270⟩, false⟩ :=
  ⟨(refresh_sets_expiry_and_get_window ⟨none, 0⟩ .missing 0 270 "" "tok" (by decide)).1,
    (refresh_sets_expiry_and_get_window ⟨none, 0⟩ .missing 0 270 "" "tok"
      (by decide)).2.2.1 5 .missing (by decide),
    (refresh_sets_expiry_and_get_window ⟨none, 0⟩ .missing 0 270 "" "tok"
      (by decide)).2.2.2 300 .missing (by decide)⟩

/-- C5 counterexample: a state whose in-memory token is present (the empty
string) but expired makes `get_access_token` read the persistent store and
return the token found there — the claim says the result is absent and the
store is not read. -/
theorem get_store_policy_counterexample :
    (⟨some (.jstr ""), 5⟩ : TMState).accessToken ≠ none ∧
    (5 : Int) ≤ 10 ∧
    getAccessToken ⟨some (.jstr ""), 5⟩
        (.parsed (.jobj [("access_token", .jstr "filetok"), ("expires_at", .jnum 100)])) 10 =
      .ok ⟨some (.jstr "filetok"), ⟨some (.jstr "filetok"), 100⟩, true⟩ :=
  ⟨by simp, by decide, rfl⟩

/-- C5 (amended): when the in-memory token is truthy (present and non-empty)
but expired, `get_access_token` returns absent without reading the persistent
store and without changing state; the store is read only when the in-memory
token is falsy; and whenever a store read produces a returned token, that
token is truthy, was adopted into memory, and is still valid at the check
instant. -/
theorem get_access_token_store_policy (st : TMState) (file : FileData) (now : Int) :
    (st.tokenTruthy = true → st.expiresAt ≤ now →
      getAccessToken st file now = .ok ⟨none, st, false⟩) ∧
    (∀ g, getAccessToken st file now = .ok g → g.storeRead = true →
      st.tokenTruthy = false) ∧
    (∀ g v, getAccessToken st file now = .ok g → g.storeRead = true →
      g.token = some v →
      g.state.accessToken = some v ∧ v.pyTruthy = true ∧ now < g.state.expiresAt) := by
  refine ⟨?_, ?_, ?_⟩
  · intro htr hexp
    simp [getAccessToken, htr, not_lt.mpr hexp]
  · intro g hg hsr
    cases htr : st.tokenTruthy with
    | false => rfl
    | true =>
      exfalso
      by_cases hlt : now < st.expiresAt
      · simp [getAccessToken, htr, hlt] at hg
        rw [← hg] at hsr
        simp at hsr
      · simp [getAccessToken, htr, hlt] at hg
        rw [← hg] at hsr
        simp at hsr
  · intro g v hg hsr htok
    cases htr : st.tokenTruthy with
    | true =>
      exfalso
      by_cases hlt : now < st.expiresAt
      · simp [getAccessToken, htr, hlt] at hg
        rw [← hg] at hsr
        simp at hsr
      · simp [getAccessToken, htr, hlt] at hg
        rw [← hg] at hsr
        simp at hsr
    | false =>
      rw [getAccessToken] at hg
      simp only [htr, Bool.false_and, Bool.false_eq_true, if_false] at hg
      cases hld : loadTokenFromFile file now st with
      | error e => rw [hld] at hg; cases hg
      | ok st2 =>
        rw [hld] at hg
        replace hg :
            (if (st2.tokenTruthy && decide (now < st2.expiresAt)) = true then
              Except.ok { token := st2.accessToken, state := st2, storeRead := true }
            else
              Except.ok ({ token := none, state := st2, storeRead := true } : GetResult)) =
            Except.ok g := hg
        by_cases hc : (st2.tokenTruthy && decide (now < st2.expiresAt)) = true
        · rw [if_pos hc] at hg
          injection hg with hg
          subst hg
          have hand := hc
          rw [Bool.and_eq_true] at hand
          obtain ⟨htr2, hlt2⟩ := hand
          refine ⟨htok, ?_, of_decide_eq_true hlt2⟩
          rw [TMState.tokenTruthy] at htr2
          simp only [GetResult.token] at htok
          rw [htok] at htr2
          exact htr2
        · rw [if_neg hc] at hg
          injection hg with hg
          subst hg
          cases htok

theorem get_access_token_store_policy_witness :
    getAccessToken ⟨some (.jstr "mem"), 5⟩ .missing 10 =
      .ok ⟨none, ⟨some (.jstr "mem"), 5⟩, false⟩ :=
  (get_access_token_store_policy ⟨some (.jstr "mem"), 5⟩ .missing 10).1 rfl (by decide)

/-- Any run of `refresh_access_token(force=False)` calls made while the
in-memory token is truthy and every call instant is before its expiry returns
the cached token each time and performs no network call. -/
theorem refreshSequence_of_valid (file : FileData) (ttl : Int) (st : TMState)
    (calls : List (Int × AuthNetResult))
    (htr : st.tokenTruthy = true) (hv : ∀ p ∈ calls, p.1 < st.expiresAt) :
    refreshSequence st file ttl calls =
      ⟨st, file, 0, calls.map fun _ => .ok (st.accessToken.getD .jnull)⟩ := by
  induction calls with
  | nil => rfl
  | cons p rest ih =>
    obtain ⟨t, net⟩ := p
    have ht : t < st.expiresAt := hv (t, net) (List.mem_cons_self _ _)
    have ihr := ih (fun q hq => hv q (List.mem_cons_of_mem _ hq))
    simp [refreshSequence, refreshAccessToken, htr, ht, ihr]

/-- C6 counterexample: when the auth endpoint issues the empty token, a
second `refresh_access_token(force=False)` call made while the stored token
is still unexpired performs a second network call (the empty string fails the
truthiness test), where the claim allows only the first call to hit the
network. -/
theorem refresh_idempotent_counterexample :
    (refreshSequence ⟨none, 0⟩ .missing 270
        [(0, .response ⟨201, "", some ""⟩), (1, .response ⟨201, "", some ""⟩)]).networkCalls
      = 2 ∧
    (refreshAccessToken ⟨none, 0⟩ .missing 0 270 (.response ⟨201, "", some ""⟩) false).state =
      ⟨some (.jstr ""), 270⟩ ∧
    (1 : Int) < 270 :=
  ⟨rfl, rfl, by decide⟩

/-- C6 (amended): starting from a state without a valid truthy token, a
sequence of `refresh_access_token(force=False)` calls whose first call is
answered with a 201 issuing a non-empty token, and whose later calls all
happen strictly before that token expires, performs exactly one network call
(the first) and returns the same token from every call. -/
theorem refresh_idempotent_while_valid (st0 : TMState) (file : FileData)
    (t0 ttl : Int) (body s : String) (rest : List (Int × AuthNetResult))
    (hs : s ≠ "")
    (hnv : (st0.tokenTruthy && decide (t0 < st0.expiresAt)) = false)
    (hrest : ∀ p ∈ rest, p.1 < t0 + ttl) :
    refreshSequence st0 file ttl ((t0, .response ⟨201, body, some s⟩) :: rest) =
      ⟨⟨some (.jstr s), t0 + ttl⟩,
        saveTokenToFile ⟨some (.jstr s), t0 + ttl⟩ file, 1,
        .ok (.jstr s) :: rest.map fun _ => .ok (.jstr s)⟩ := by
  have hst2tr : TMState.tokenTruthy ⟨some (.jstr s), t0 + ttl⟩ = true := by
    simp [TMState.tokenTruthy, JsonValue.pyTruthy, hs]
  have hfirst : refreshAccessToken st0 file t0 ttl (.response ⟨201, body, some s⟩) false =
      ⟨.ok (.jstr s), ⟨some (.jstr s), t0 + ttl⟩,
        saveTokenToFile ⟨some (.jstr s), t0 + ttl⟩ file, 1⟩ := by
    simp [refreshAccessToken, hnv, refreshAccessTokenSyncInner]
  simp [refreshSequence, hfirst,
    refreshSequence_of_valid (saveTokenToFile ⟨some (.jstr s), t0 + ttl⟩ file) ttl
      ⟨some (.jstr s), t0 + ttl⟩ rest hst2tr hrest]

theorem refresh_idempotent_while_valid_witness :
    refreshSequence ⟨none, 0⟩ .missing 270
        [(0, .response ⟨201, "", some "tok"⟩), (5, .connectError "unused")] =
      ⟨⟨some (.jstr "tok"), 0 + 270⟩,
        saveTokenToFile ⟨some (.jstr "tok"), 0 + 270⟩ .missing, 1,
        [.ok (.jstr "tok"), .ok (.jstr "tok")]⟩ :=
  refresh_idempotent_while_valid ⟨none, 0⟩ .missing 0 270 "" "tok"
    [(5, .connectError "unused")] (by decide) rfl
    (by intro p hp
        rcases List.mem_singleton.mp hp with rfl
        decide)

/-- C1: a flow entered with a valid cached (non-empty) token attaches it and
sends once; on a 401 it makes exactly one call to the auth endpoint, and when
that call issues a token it resends exactly once with the refreshed bearer
attached — two sends total, one auth call, no third send — and the second
bearer differs from the first whenever the auth endpoint issues a different
token. -/
theorem auth_flow_retries_exactly_once (st : TMState) (file : FileData)
    (now ttl : Int) (s tok2 body : String) (rest : List AuthNetResult)
    (hmem : st.accessToken = some (.jstr s)) (hs : s ≠ "")
    (hvalid : now < st.expiresAt) :
    authFlow st file now ttl (.response ⟨201, body, some tok2⟩ :: rest) 401 =
      .ok ⟨[some (.jstr s), some (.jstr tok2)], 1, ⟨some (.jstr tok2), now + ttl⟩,
        saveTokenToFile ⟨some (.jstr tok2), now + ttl⟩ file⟩ ∧
    (tok2 ≠ s → (some (JsonValue.jstr tok2) : Option JsonValue) ≠ some (.jstr s)) := by
  constructor
  · have htr : st.tokenTruthy = true := by
      simp [TMState.tokenTruthy, hmem, JsonValue.pyTruthy, hs]
    have hget : getAccessToken st file now = .ok ⟨some (.jstr s), st, false⟩ := by
      simp [getAccessToken, htr, hvalid, hmem]
    simp [authFlow, hget, authFlowResume, JsonValue.pyTruthy, hs, headAuth,
      refreshAccessToken, refreshAccessTokenSyncInner]
  · intro hne
    simp [hne]

theorem auth_flow_retries_exactly_once_witness :
    authFlow ⟨some (.jstr "A"), 100⟩ .missing 10 270 [.response ⟨201, "", some "B"⟩] 401 =
      .ok ⟨[some (.jstr "A"), some (.jstr "B")], 1, ⟨some (.jstr "B"), 10 + 270⟩,
        saveTokenToFile ⟨some (.jstr "B"), 10 + 270⟩ .missing⟩ :=
  (auth_flow_retries_exactly_once ⟨some (.jstr "A"), 100⟩ .missing 10 270 "A" "B" "" []
    rfl (by decide) (by decide)).1

/-- A translated offers response is a success only for a 200 status. -/
theorem handleGetOffersResponse_ok_status (resp : OffersHttpResponse)
    (productId : ProductId) (offers : List Offer)
    (h : handleGetOffersResponse resp productId = .ok offers) : resp.status = 200 := by
  unfold handleGetOffersResponse at h
  cases h200 : resp.status == 200 <;> cases hpo : resp.parsedOffers <;>
    simp only [h200, hpo] at h
  case false.none | false.some =>
    split at h <;> first | cases h | (split at h <;> cases h)
  case true.none =>
    split at h <;> first | cases h | (split at h <;> cases h)
  case true.some => exact by simpa using h200

/-- C9 counterexample: `get_offers` against a 404 raises `ProductNotFound`
but does not leave the cache unchanged — the cache held an expired entry for
the product id and the initial cache lookup lazily evicted it. -/
theorem get_offers_cache_changed_counterexample :
    (getOffersOp ⟨10, fun k => if k = 1 then some ([⟨7, 100, 3⟩], 0) else none⟩ 1 100
        ⟨404, "", none⟩).1 =
      .error (.productNotFound 404
        ("Product with ID " ++ toString (1 : ProductId) ++ " not found.")) ∧
    (⟨10, fun k => if k = 1 then some ([⟨7, 100, 3⟩], 0) else none⟩ : OfferCache).cache 1 =
      some ([⟨7, 100, 3⟩], 0) ∧
    (getOffersOp ⟨10, fun k => if k = 1 then some ([⟨7, 100, 3⟩], 0) else none⟩ 1 100
        ⟨404, "", none⟩).2.1.cache 1 = none :=
  ⟨rfl, rfl, rfl⟩

/-- C9 (amended): a `get_offers` call that finds no valid cache entry and
whose fetch answers 404 raises `ProductNotFound` and stores nothing: the
resulting cache has no entry for the product id and every other entry is
untouched (the only possible change is the lazy eviction of an expired entry
for that id during the initial lookup); and, whatever the response, an entry
is stored for the product id only when the fetch succeeds with status 200. -/
theorem get_offers_404_no_cache_population (cache : OfferCache) (pid : ProductId)
    (now : Int) (body : String) (po : Option (List Offer))
    (hmiss : (OfferCache.get cache pid now).1 = none) :
    (getOffersOp cache pid now ⟨404, body, po⟩).1 =
      .error (.productNotFound 404
        ("Product with ID " ++ toString pid ++ " not found.")) ∧
    (getOffersOp cache pid now ⟨404, body, po⟩).2.1.cache pid = none ∧
    (∀ k, k ≠ pid → (getOffersOp cache pid now ⟨404, body, po⟩).2.1.cache k =
      cache.cache k) ∧
    (∀ resp : OffersHttpResponse, ∀ entry,
      (getOffersOp cache pid now resp).2.1.cache pid = some entry →
      resp.status = 200) := by
  have h404 : handleGetOffersResponse ⟨404, body, po⟩ pid =
      .error (.productNotFound 404
        ("Product with ID " ++ toString pid ++ " not found.")) := by
    cases po <;> rfl
  cases hc : cache.cache pid with
  | none =>
    have hget : OfferCache.get cache pid now = (none, cache) := by
      simp [OfferCache.get, hc]
    refine ⟨?_, ?_, ?_, ?_⟩
    · simp [getOffersOp, hget, h404]
    · simp [getOffersOp, hget, h404, hc]
    · intro k hk
      simp [getOffersOp, hget, h404]
    · intro resp entry hentry
      rw [getOffersOp, hget] at hentry
      cases hh : handleGetOffersResponse resp pid with
      | error e => rw [hh] at hentry; simp at hentry; rw [hentry] at hc; cases hc
      | ok offers => exact handleGetOffersResponse_ok_status resp pid offers hh
  | some entry0 =>
    obtain ⟨v0, ts0⟩ := entry0
    have hexp : now - ts0 > cache.ttl := by
      by_contra hle
      simp [OfferCache.get, hc, hle] at hmiss
    have hget : OfferCache.get cache pid now =
        (none, { cache with cache := fun k => if k = pid then none else cache.cache k }) := by
      simp [OfferCache.get, hc, hexp]
    refine ⟨?_, ?_, ?_, ?_⟩
    · simp [getOffersOp, hget, h404]
    · simp [getOffersOp, hget, h404]
    · intro k hk
      simp [getOffersOp, hget, h404, hk]
    · intro resp entry hentry
      rw [getOffersOp, hget] at hentry
      cases hh : handleGetOffersResponse resp pid with
      | error e => rw [hh] at hentry; simp at hentry
      | ok offers => exact handleGetOffersResponse_ok_status resp pid offers hh

theorem get_offers_404_no_cache_population_witness :
    (getOffersOp ⟨10, fun _ => none⟩ 1 100 ⟨404, "", none⟩).1 =
      .error (.productNotFound 404
        ("Product with ID " ++ toString (1 : ProductId) ++ " not found.")) :=
  (get_offers_404_no_cache_population ⟨10, fun _ => none⟩ 1 100 "" none rfl).1

end AppliftingSDK
